import Mathlib

/-!
Verification of the canonical-data model and deterministic resolution engine
of the landing-page generator.

The Lean definitions below are a shallow embedding of the Python sources:
`src/core/schemas.py` (pydantic data model and validators),
`src/core/renderer.py` (variant/template resolution), and
`src/orchestrator.py` (pipeline driver).  Python `str` is modelled by Lean
`String`, Python `int` by `Int` (with `Nat` where the source guarantees
non-negativity), lists by `List`, `None`-able fields by `Option`, and
raising code by `Except`.
-/

namespace LandingGen

/-! ## JSON values (for the serialization round-trip and `Any`-typed fields) -/

/-- A JSON value, used for `dict[str, Any]` fields and for modelling
`model_dump_json` / `model_validate_json` at the level of the JSON tree. -/
inductive JVal where
  | str : String → JVal
  | int : Int → JVal
  | bool : Bool → JVal
  | null : JVal
  | arr : List JVal → JVal
  | obj : List (String × JVal) → JVal
deriving Repr

/-! ## Data model (`src/core/schemas.py`) -/

/-- Constant `SCHEMA_VERSION = "1.2.1"` from `schemas.py`. -/
def SCHEMA_VERSION : String := "1.2.1"

/-- The allow-listed Google fonts (`ALLOWED_FONTS` in `schemas.py`). -/
def ALLOWED_FONTS : List String :=
  ["Inter", "Roboto", "Open Sans", "Lato", "Montserrat", "Poppins",
   "Source Sans Pro", "Nunito", "Raleway", "Work Sans", "DM Sans",
   "Plus Jakarta Sans", "Space Grotesk", "Outfit", "Sora",
   "Playfair Display", "Merriweather", "Lora", "Crimson Text"]

/-- The allow-listed icon identifiers (`ALLOWED_ICONS` in `schemas.py`). -/
def ALLOWED_ICONS : List String :=
  ["rocket", "shield", "zap", "star", "heart", "check", "lightning",
   "chart", "users", "clock", "lock", "globe", "mail", "phone",
   "settings", "layers", "target", "trending", "award", "briefcase"]

/-- The four tone values of `ToneType` (keys of `TONE_PRESETS`). -/
def TONE_TYPES : List String := ["professional", "friendly", "bold", "minimal"]

/-- The three template types of `TemplateType`. -/
def TEMPLATE_TYPES : List String := ["saas", "app", "agency"]

structure ProjectInfo where
  product_name : String
  tagline : String
  description : String
  target_audience : String
  value_proposition : String
  tone : String
  keywords : List String
deriving Repr, DecidableEq

structure ColorPalette where
  primary : String
  secondary : String
  accent : String
  background : String
  text : String
deriving Repr, DecidableEq

structure Typography where
  heading : String
  body : String
deriving Repr, DecidableEq

structure BrandIdentity where
  colors : ColorPalette
  fonts : Typography
  tone_rules : List String
deriving Repr, DecidableEq

structure HeroSection where
  headline : String
  subheadline : String
  cta_text : String
deriving Repr, DecidableEq

structure Feature where
  title : String
  description : String
  icon : String
deriving Repr, DecidableEq

structure Testimonial where
  quote : String
  author : String
  role : String
deriving Repr, DecidableEq

structure ContentVariants where
  headlines : List String
  ctas : List String
deriving Repr, DecidableEq

/-- Method `ContentVariants.max_variant_id`: `len(self.headlines) if self.headlines else 0`. -/
def ContentVariants.max_variant_id (v : ContentVariants) : Nat :=
  if v.headlines.isEmpty then 0 else v.headlines.length

structure SectionsConfig where
  pricing : Bool
  faq : Bool
  logos : Bool
  screenshots : Bool
  feature_grid : Bool
  stats : Bool
deriving Repr, DecidableEq

/-- Default `SectionsConfig()` (pricing/faq/logos/screenshots False,
feature_grid/stats True). -/
def SectionsConfig.default : SectionsConfig :=
  ⟨false, false, false, false, true, true⟩

structure LandingContent where
  hero : HeroSection
  features : List Feature
  testimonial : Testimonial
  footer_cta : String
  variants : ContentVariants
  sections : SectionsConfig
  faq_items : List (List (String × String))
  pricing_plans : List (List (String × JVal))
deriving Repr

structure AssetSlots where
  hero_image_prompt : Option String
  hero_image_alt : Option String
  og_image_prompt : Option String
  logo_url : Option String
  screenshot_prompts : List String
deriving Repr, DecidableEq

/-- Default `AssetSlots()` (all prompt slots empty). -/
def AssetSlots.default : AssetSlots := ⟨none, none, none, none, []⟩

structure RenderConfig where
  template_type : String
  variant_id : Int
deriving Repr, DecidableEq

structure GenerationMeta where
  schema_version : String
  generated_at : String
  pipeline_steps : List String
deriving Repr, DecidableEq

structure CanonicalData where
  meta : GenerationMeta
  project : ProjectInfo
  brand : Option BrandIdentity
  content : Option LandingContent
  assets : AssetSlots
  render : RenderConfig
deriving Repr

/-- Method `CanonicalData.get_effective_variant_id` from `schemas.py`: 0 when
`content` is absent, 0 when `render.variant_id` exceeds
`content.variants.max_variant_id()`, the requested id otherwise. -/
def CanonicalData.get_effective_variant_id (d : CanonicalData) : Int :=
  match d.content with
  | none => 0
  | some c =>
    if d.render.variant_id > (c.variants.max_variant_id : Int) then 0
    else d.render.variant_id

/-- Constant `DefaultBrand.COLORS` from `schemas.py`. -/
def DefaultBrand.COLORS : ColorPalette :=
  ⟨"#6366F1", "#818CF8", "#F59E0B", "#FAFAFA", "#1F2937"⟩

/-- Constant `DefaultBrand.FONTS` from `schemas.py`. -/
def DefaultBrand.FONTS : Typography := ⟨"Inter", "Inter"⟩

/-- Constant `DefaultBrand.IDENTITY` from `schemas.py`: the fixed fallback brand
identity used when the brand stage fails. -/
def DefaultBrand.IDENTITY : BrandIdentity :=
  ⟨DefaultBrand.COLORS, DefaultBrand.FONTS,
   ["Be clear and concise", "Focus on user benefits", "Use active voice"]⟩

/-! ## Python string primitives

`str.split`, `str.strip` and `str.lower` are modelled character-wise so that
they compute by kernel reduction. -/

/-- Character-level worker for `pySplit`: splits off a field at every
separator, like Python `str.split(sep)` for a one-character separator. -/
def splitCharsAux (sep : Char) : List Char → List Char → List String
  | [], acc => [⟨acc.reverse⟩]
  | c :: rest, acc =>
    if c = sep then ⟨acc.reverse⟩ :: splitCharsAux sep rest []
    else splitCharsAux sep rest (c :: acc)

/-- Python `s.split(sep)` for a one-character separator: `"1.2.1"` splits
into `["1", "2", "1"]` and `""` splits into `[""]`. -/
def pySplit (sep : Char) (s : String) : List String :=
  splitCharsAux sep s.data []

/-- Python `s.lower()` (ASCII case folding on each character). -/
def pyLower (s : String) : String := ⟨s.data.map Char.toLower⟩

/-- Character-level worker for `pyStrip`: drops leading and trailing
whitespace. -/
def stripChars (l : List Char) : List Char :=
  ((l.dropWhile Char.isWhitespace).reverse.dropWhile Char.isWhitespace).reverse

/-- Python `s.strip()`. -/
def pyStrip (s : String) : String := ⟨stripChars s.data⟩

/-! ## Field validators (`src/core/schemas.py`) -/

/-- The list `sorted(ALLOWED_FONTS)`, as interpolated into the font error message. -/
def SORTED_FONTS : List String :=
  ["Crimson Text", "DM Sans", "Inter", "Lato", "Lora", "Merriweather",
   "Montserrat", "Nunito", "Open Sans", "Outfit", "Playfair Display",
   "Plus Jakarta Sans", "Poppins", "Raleway", "Roboto", "Sora",
   "Source Sans Pro", "Space Grotesk", "Work Sans"]

/-- The list `sorted(ALLOWED_ICONS)`, as interpolated into the icon error message. -/
def SORTED_ICONS : List String :=
  ["award", "briefcase", "chart", "check", "clock", "globe", "heart",
   "layers", "lightning", "lock", "mail", "phone", "rocket", "settings",
   "shield", "star", "target", "trending", "users", "zap"]

/-- Validator `Typography.validate_font`: membership in `ALLOWED_FONTS`, a hard
validation error (naming the allow-list) otherwise. -/
def Typography.validate_font (v : String) : Except String String :=
  if v ∈ ALLOWED_FONTS then .ok v
  else .error ("Font '" ++ v ++ "' not in ALLOWED_FONTS. Valid fonts: " ++
    String.intercalate ", " SORTED_FONTS)

/-- Construction of `Typography`, validating both fonts (the model has no
whitespace-stripping config). -/
def Typography.mk_validated (heading body : String) : Except String Typography :=
  match Typography.validate_font heading with
  | .error e => .error e
  | .ok h =>
    match Typography.validate_font body with
    | .error e => .error e
    | .ok b => .ok ⟨h, b⟩

/-- Validator `Feature.validate_icon`: lowercases and trims the value, then requires
membership in `ALLOWED_ICONS`; the normalized value is what gets stored. -/
def Feature.validate_icon (v : String) : Except String String :=
  let icon := pyStrip (pyLower v)
  if icon ∈ ALLOWED_ICONS then .ok icon
  else .error ("Icon '" ++ icon ++ "' not in ALLOWED_ICONS. Valid icons: " ++
    String.intercalate ", " SORTED_ICONS)

/-- Construction of `Feature`: the model's `str_strip_whitespace` config
strips every string field, the `Field` bounds check `title` (2-50) and
`description` (10-150), and the icon validator normalizes and checks the
icon. -/
def Feature.mk_validated (title description icon : String) : Except String Feature :=
  let title := pyStrip title
  let description := pyStrip description
  let icon := pyStrip icon
  if ¬(2 ≤ title.length ∧ title.length ≤ 50) then
    .error "Feature.title length out of bounds"
  else if ¬(10 ≤ description.length ∧ description.length ≤ 150) then
    .error "Feature.description length out of bounds"
  else
    match Feature.validate_icon icon with
    | .error e => .error e
    | .ok ic => .ok ⟨title, description, ic⟩

/-- The dot separator used by the schema-version comparison. -/
def sepDot : Char := Char.ofNat 46

/-- Validator `GenerationMeta.validate_schema_version`: splits on `.`, requires at
least two components, and requires the major and minor components to equal
those of the running `SCHEMA_VERSION`; the patch component may differ. -/
def GenerationMeta.validate_schema_version (v : String) : Except String String :=
  let current_parts := pySplit sepDot SCHEMA_VERSION
  let input_parts := pySplit sepDot v
  if input_parts.length < 2 then
    .error ("Invalid schema_version format: " ++ v)
  else if input_parts.getD 0 "" ≠ current_parts.getD 0 "" ∨
          input_parts.getD 1 "" ≠ current_parts.getD 1 "" then
    .error ("Schema version mismatch: got " ++ v ++ ", expected " ++ SCHEMA_VERSION ++
      ". Major.minor must match.")
  else .ok v

/-- Construction of `GenerationMeta`: the schema version is validated, the
timestamp and step log are taken as given. -/
def GenerationMeta.mk_validated (schema_version generated_at : String)
    (pipeline_steps : List String) : Except String GenerationMeta :=
  (GenerationMeta.validate_schema_version schema_version).map fun sv =>
    ⟨sv, generated_at, pipeline_steps⟩

/-! ## Renderer (`src/core/renderer.py`) -/

/-- Mapping `TEMPLATE_FILES` from `renderer.py`: template type → template file. -/
def TEMPLATE_FILES (template_type : String) : Option String :=
  if template_type = "saas" then some "saas.html.j2"
  else if template_type = "app" then some "app.html.j2"
  else if template_type = "agency" then some "agency.html.j2"
  else none

structure ToneStyle where
  hero_size : String
  cta_style : String
deriving Repr, DecidableEq

/-- Mapping `TONE_STYLES` from `renderer.py`: tone → CSS style tokens. -/
def TONE_STYLES (tone : String) : Option ToneStyle :=
  if tone = "professional" then some ⟨"text-5xl md:text-6xl", "rounded-lg"⟩
  else if tone = "friendly" then some ⟨"text-4xl md:text-5xl", "rounded-full"⟩
  else if tone = "bold" then
    some ⟨"text-6xl md:text-7xl font-black", "rounded-none uppercase tracking-wider"⟩
  else if tone = "minimal" then
    some ⟨"text-4xl md:text-5xl font-light", "rounded-sm border"⟩
  else none

structure RenderErr where
  message : String
  code : String
deriving Repr, DecidableEq

/-- The deterministic part of the context handed to the Jinja template by
`render_landing` (the external templating engine and the wall-clock year
are outside the model). -/
structure ViewContext where
  template_file : String
  effective_variant_id : Int
  headline : String
  cta_text : String
  brand : BrandIdentity
  sections : SectionsConfig
  assets : AssetSlots
  tone : String
  tone_style : ToneStyle
deriving Repr, DecidableEq

/-- Method `TemplateRenderer._resolve_variant`: variant 0 or an empty variant list
gives the default; otherwise `variants[variant_id-1]` when the index is in
bounds, the default when out of bounds. -/
def resolve_variant (dflt : String) (variants : List String) (variant_id : Int) : String :=
  if variant_id = 0 ∨ variants.isEmpty then dflt
  else
    let idx := variant_id - 1
    if 0 ≤ idx ∧ idx < (variants.length : Int) then variants.getD idx.toNat dflt
    else dflt

/-- Method `TemplateRenderer._clamp_variant_id`: 0 stays 0, an id above
`max_variant_id` is clamped to 0, anything else is kept. -/
def clamp_variant_id (variant_id : Int) (variants : ContentVariants) : Int :=
  if variant_id = 0 then 0
  else if variant_id > (variants.max_variant_id : Int) then 0
  else variant_id

/-- The successful branch of `TemplateRenderer.render_landing`, computing the
view context from a document whose `content` is present. -/
def resolve_view (data : CanonicalData) (c : LandingContent)
    (template_override : Option String) (variant_override : Option Int) : ViewContext :=
  let template_type := template_override.getD data.render.template_type
  let template_file := (TEMPLATE_FILES template_type).getD "saas.html.j2"
  let variant_id := variant_override.getD data.render.variant_id
  let effective := clamp_variant_id variant_id c.variants
  { template_file := template_file
    effective_variant_id := effective
    headline := resolve_variant c.hero.headline c.variants.headlines effective
    cta_text := resolve_variant c.hero.cta_text c.variants.ctas effective
    brand := data.brand.getD DefaultBrand.IDENTITY
    sections := c.sections
    assets := data.assets
    tone := data.project.tone
    tone_style := (TONE_STYLES data.project.tone).getD
      ⟨"text-5xl md:text-6xl", "rounded-lg"⟩ }

/-- Method `TemplateRenderer.render_landing`, over an environment `env` listing the
template files present on disk: raises `E303` when `content` is absent,
`E301` when the resolved template file is not in `env`, and otherwise
resolves the view context. -/
def render_landing (env : List String) (data : CanonicalData)
    (template_override : Option String) (variant_override : Option Int) :
    Except RenderErr ViewContext :=
  match data.content with
  | none =>
    .error ⟨"CanonicalData.content is required for rendering", "E303"⟩
  | some c =>
    let template_type := template_override.getD data.render.template_type
    let template_file := (TEMPLATE_FILES template_type).getD "saas.html.j2"
    if template_file ∈ env then
      .ok (resolve_view data c template_override variant_override)
    else
      .error ⟨"Template '" ++ template_file ++ "' not found", "E301"⟩

/-- The deployment's template directory: the three template files shipped
with the repository. -/
def standard_env : List String := ["saas.html.j2", "app.html.j2", "agency.html.j2"]

/-- The (template, variant-id) pairs enumerated by `render_all_variants` for
`n` alternate headlines: each template crossed with ids `0..n`, templates
outermost. -/
def all_variant_pairs (n : Nat) : List (String × Nat) :=
  TEMPLATE_TYPES.flatMap fun t => (List.range (n + 1)).map fun i => (t, i)

/-- Function `render_all_variants` from `renderer.py`: one entry per template ×
variant id, keyed `template_type ++ "_v" ++ id`, each produced by the
single-resolution path `render_landing`. -/
def render_all_variants (env : List String) (data : CanonicalData) :
    Except RenderErr (List (String × ViewContext)) :=
  let num_variants :=
    match data.content with
    | some c => if c.variants.headlines.isEmpty then 0 else c.variants.headlines.length
    | none => 0
  (all_variant_pairs num_variants).mapM fun p => do
    let ctx ← render_landing env data (some p.1) (some (p.2 : Int))
    pure (p.1 ++ "_v" ++ toString p.2, ctx)

/-! ## Construction and assignment semantics of further entities
(`src/core/schemas.py`)

Pydantic validates on construction always; it re-validates on assignment
only for models whose `model_config` sets `validate_assignment=True`.  In
`schemas.py` only `CanonicalData` sets it; every other entity stores
assigned values as given. -/

/-- Construction of `HeroSection`: `str_strip_whitespace` strips each field,
then the `Field` bounds apply (headline 5-100, subheadline 10-200, cta_text
2-30). -/
def HeroSection.mk_validated (headline subheadline cta_text : String) :
    Except String HeroSection :=
  let headline := pyStrip headline
  let subheadline := pyStrip subheadline
  let cta_text := pyStrip cta_text
  if ¬(5 ≤ headline.length ∧ headline.length ≤ 100) then
    .error "HeroSection.headline length out of bounds"
  else if ¬(10 ≤ subheadline.length ∧ subheadline.length ≤ 200) then
    .error "HeroSection.subheadline length out of bounds"
  else if ¬(2 ≤ cta_text.length ∧ cta_text.length ≤ 30) then
    .error "HeroSection.cta_text length out of bounds"
  else .ok ⟨headline, subheadline, cta_text⟩

/-- Assignment to `headline` on an existing `HeroSection`: the model does
not set `validate_assignment`, so pydantic stores the value without
re-running any validation. -/
def HeroSection.assign_headline (h : HeroSection) (v : String) :
    Except String HeroSection :=
  .ok { h with headline := v }

/-- Assignment to `variant_id` on an existing `RenderConfig`: the model does
not set `validate_assignment`, so the value is stored unchecked (the
repository's own tests assign `variant_id = 99` and expect success). -/
def RenderConfig.assign_variant_id (r : RenderConfig) (v : Int) :
    Except String RenderConfig :=
  .ok { r with variant_id := v }

/-- Validator `CanonicalData.validate_variant_id_bounds`: the `model_validator` on the
aggregate root; it inspects `render.variant_id` against the available
variants but deliberately never blocks (the source body is a comment and
`pass`), so legacy documents stay loadable. -/
def CanonicalData.validate_variant_id_bounds (d : CanonicalData) :
    Except String CanonicalData :=
  .ok d

/-- Assignment to `render` on an existing `CanonicalData`: the aggregate
root sets `validate_assignment=True`, so the model validator re-runs. -/
def CanonicalData.assign_render (d : CanonicalData) (r : RenderConfig) :
    Except String CanonicalData :=
  CanonicalData.validate_variant_id_bounds { d with render := r }

/-! ## Remaining construction validators (`src/core/schemas.py`) -/

/-- The keys of `TONE_PRESETS` (same four tones as `ToneType`). -/
def TONE_PRESETS_KEYS : List String := TONE_TYPES

/-- A hexadecimal digit, `[0-9A-Fa-f]`. -/
def isHexDigitChar (c : Char) : Bool :=
  c.isDigit || ('a' ≤ c && c ≤ 'f') || ('A' ≤ c && c ≤ 'F')

/-- The strict `HEX_COLOR_PATTERN` of `schemas.py`: `#` followed by exactly
six hex digits. -/
def isHexColor (s : String) : Bool :=
  match s.data with
  | c :: rest => c == '#' && rest.length == 6 && rest.all isHexDigitChar
  | [] => false

/-- Construction of `ColorPalette`: all five colors must match the strict
hex pattern. -/
def ColorPalette.mk_validated (primary secondary accent background text : String) :
    Except String ColorPalette :=
  if ¬(isHexColor primary) then .error "ColorPalette.primary not a hex color"
  else if ¬(isHexColor secondary) then .error "ColorPalette.secondary not a hex color"
  else if ¬(isHexColor accent) then .error "ColorPalette.accent not a hex color"
  else if ¬(isHexColor background) then .error "ColorPalette.background not a hex color"
  else if ¬(isHexColor text) then .error "ColorPalette.text not a hex color"
  else .ok ⟨primary, secondary, accent, background, text⟩

/-- Construction of `BrandIdentity`: the nested palette and typography are
validated on their own; `tone_rules` is bounded 2-5 on input, then the
validator trims entries, drops empties and requires at least 2 left. -/
def BrandIdentity.mk_validated (colors : ColorPalette) (fonts : Typography)
    (tone_rules : List String) : Except String BrandIdentity :=
  if ¬(2 ≤ tone_rules.length ∧ tone_rules.length ≤ 5) then
    .error "BrandIdentity.tone_rules length out of bounds"
  else
    let validated := (tone_rules.filter (fun r => !(pyStrip r == ""))).map pyStrip
    if validated.length < 2 then
      .error "At least 2 non-empty tone_rules required"
    else .ok ⟨colors, fonts, validated⟩

/-- Construction of `ProjectInfo`: `str_strip_whitespace` strips the string
fields, the `Field` bounds apply, the tone must be a `ToneType` and exist
in `TONE_PRESETS`, and the keywords validator normalizes (trim, lowercase,
drop empties) and requires at least 3 left. -/
def ProjectInfo.mk_validated (product_name tagline description target_audience
    value_proposition tone : String) (keywords : List String) :
    Except String ProjectInfo :=
  let product_name := pyStrip product_name
  let tagline := pyStrip tagline
  let description := pyStrip description
  let target_audience := pyStrip target_audience
  let value_proposition := pyStrip value_proposition
  if ¬(1 ≤ product_name.length ∧ product_name.length ≤ 100) then
    .error "ProjectInfo.product_name length out of bounds"
  else if ¬(1 ≤ tagline.length ∧ tagline.length ≤ 80) then
    .error "ProjectInfo.tagline length out of bounds"
  else if ¬(10 ≤ description.length ∧ description.length ≤ 500) then
    .error "ProjectInfo.description length out of bounds"
  else if ¬(1 ≤ target_audience.length) then
    .error "ProjectInfo.target_audience must not be empty"
  else if ¬(1 ≤ value_proposition.length) then
    .error "ProjectInfo.value_proposition must not be empty"
  else if ¬(tone ∈ TONE_TYPES) then
    .error "ProjectInfo.tone not a valid ToneType"
  else if ¬(tone ∈ TONE_PRESETS_KEYS) then
    .error "Tone not in TONE_PRESETS"
  else if ¬(3 ≤ keywords.length ∧ keywords.length ≤ 7) then
    .error "ProjectInfo.keywords length out of bounds"
  else
    let normalized := (keywords.filter (fun kw => !(pyStrip kw == ""))).map
      (fun kw => pyLower (pyStrip kw))
    if normalized.length < 3 then
      .error "At least 3 keywords required"
    else .ok ⟨product_name, tagline, description, target_audience,
      value_proposition, tone, normalized⟩

/-- Construction of `Testimonial`: stripped fields with quote 20-300,
author 2-50, role 2-80. -/
def Testimonial.mk_validated (quote author role : String) : Except String Testimonial :=
  let quote := pyStrip quote
  let author := pyStrip author
  let role := pyStrip role
  if ¬(20 ≤ quote.length ∧ quote.length ≤ 300) then
    .error "Testimonial.quote length out of bounds"
  else if ¬(2 ≤ author.length ∧ author.length ≤ 50) then
    .error "Testimonial.author length out of bounds"
  else if ¬(2 ≤ role.length ∧ role.length ≤ 80) then
    .error "Testimonial.role length out of bounds"
  else .ok ⟨quote, author, role⟩

/-- Construction of `ContentVariants`: at most 3 headlines and 3 CTAs on
input; the validator trims entries and drops empties. -/
def ContentVariants.mk_validated (headlines ctas : List String) :
    Except String ContentVariants :=
  if ¬(headlines.length ≤ 3) then .error "ContentVariants.headlines length out of bounds"
  else if ¬(ctas.length ≤ 3) then .error "ContentVariants.ctas length out of bounds"
  else .ok ⟨(headlines.filter (fun h => !(pyStrip h == ""))).map pyStrip,
            (ctas.filter (fun c => !(pyStrip c == ""))).map pyStrip⟩

/-- Construction of `LandingContent`: nested entities are validated on
their own; 3-6 features, footer CTA 5-100 (this model has no
whitespace-stripping config), at most 6 FAQ items and 3 pricing plans. -/
def LandingContent.mk_validated (hero : HeroSection) (features : List Feature)
    (testimonial : Testimonial) (footer_cta : String) (variants : ContentVariants)
    (sections : SectionsConfig) (faq_items : List (List (String × String)))
    (pricing_plans : List (List (String × JVal))) : Except String LandingContent :=
  if ¬(3 ≤ features.length ∧ features.length ≤ 6) then
    .error "LandingContent.features length out of bounds"
  else if ¬(5 ≤ footer_cta.length ∧ footer_cta.length ≤ 100) then
    .error "LandingContent.footer_cta length out of bounds"
  else if ¬(faq_items.length ≤ 6) then
    .error "LandingContent.faq_items length out of bounds"
  else if ¬(pricing_plans.length ≤ 3) then
    .error "LandingContent.pricing_plans length out of bounds"
  else .ok ⟨hero, features, testimonial, footer_cta, variants, sections,
    faq_items, pricing_plans⟩

/-- Construction of `AssetSlots`: optional prompt strings bounded in
length, at most 4 screenshot prompts. -/
def AssetSlots.mk_validated (hero_image_prompt hero_image_alt og_image_prompt
    logo_url : Option String) (screenshot_prompts : List String) :
    Except String AssetSlots :=
  if ¬(∀ s ∈ hero_image_prompt, s.length ≤ 500) then
    .error "AssetSlots.hero_image_prompt too long"
  else if ¬(∀ s ∈ hero_image_alt, s.length ≤ 200) then
    .error "AssetSlots.hero_image_alt too long"
  else if ¬(∀ s ∈ og_image_prompt, s.length ≤ 500) then
    .error "AssetSlots.og_image_prompt too long"
  else if ¬(∀ s ∈ logo_url, s.length ≤ 500) then
    .error "AssetSlots.logo_url too long"
  else if ¬(screenshot_prompts.length ≤ 4) then
    .error "AssetSlots.screenshot_prompts length out of bounds"
  else .ok ⟨hero_image_prompt, hero_image_alt, og_image_prompt, logo_url,
    screenshot_prompts⟩

/-- Construction of `RenderConfig`: the template type is a `TemplateType`
literal and the variant id is clamped to the safety range 0-10. -/
def RenderConfig.mk_validated (template_type : String) (variant_id : Int) :
    Except String RenderConfig :=
  if ¬(template_type ∈ TEMPLATE_TYPES) then
    .error "RenderConfig.template_type not a valid TemplateType"
  else if ¬(0 ≤ variant_id ∧ variant_id ≤ 10) then
    .error "RenderConfig.variant_id out of range"
  else .ok ⟨template_type, variant_id⟩

/-- Construction of `CanonicalData` from validated components: the
`model_validator` `validate_variant_id_bounds` runs last and never blocks. -/
def CanonicalData.mk_validated (meta : GenerationMeta) (project : ProjectInfo)
    (brand : Option BrandIdentity) (content : Option LandingContent)
    (assets : AssetSlots) (render : RenderConfig) : Except String CanonicalData :=
  CanonicalData.validate_variant_id_bounds
    ⟨meta, project, brand, content, assets, render⟩

/-! ## Serialization (`CanonicalData.to_json` / `CanonicalData.from_json`)

`model_dump_json` and `model_validate_json` are modelled at the level of
the JSON tree (`JVal`); the byte-level printing and parsing of that tree is
the external `json` library.  Deserialization re-runs the full validation
layer, mirroring `model_validate_json`. -/

/-- Error-propagating sequencing for decoders (`Except` bind, written as a
plain function so that proofs can rewrite with it). -/
def exBind {α β : Type} (x : Except String α) (f : α → Except String β) :
    Except String β :=
  match x with
  | .error e => .error e
  | .ok a => f a

def getStr : Option JVal → Except String String
  | some (.str s) => .ok s
  | _ => .error "expected a string"

def getInt : Option JVal → Except String Int
  | some (.int n) => .ok n
  | _ => .error "expected an integer"

def getBool : Option JVal → Except String Bool
  | some (.bool b) => .ok b
  | _ => .error "expected a boolean"

def getOptStr : Option JVal → Except String (Option String)
  | some (.str s) => .ok (some s)
  | some .null => .ok none
  | _ => .error "expected a string or null"

/-- Decode a JSON array of strings. -/
def strList : List JVal → Except String (List String)
  | [] => .ok []
  | .str s :: rest => exBind (strList rest) fun l => .ok (s :: l)
  | _ => .error "expected a string"

def getStrList : Option JVal → Except String (List String)
  | some (.arr l) => strList l
  | _ => .error "expected an array"

def encodeStrList (l : List String) : JVal := .arr (l.map .str)

/-- Decode the fields of a string-valued JSON object (a `dict[str, str]`). -/
def strPairs : List (String × JVal) → Except String (List (String × String))
  | [] => .ok []
  | (k, .str v) :: rest => exBind (strPairs rest) fun ps => .ok ((k, v) :: ps)
  | _ => .error "expected a string value"

/-- Decode a JSON array of `dict[str, str]` objects (the `faq_items`). -/
def decodeStrObjList : List JVal → Except String (List (List (String × String)))
  | [] => .ok []
  | .obj fields :: rest =>
    exBind (strPairs fields) fun ps =>
    exBind (decodeStrObjList rest) fun l => .ok (ps :: l)
  | _ => .error "expected an object"

/-- Decode a JSON array of `dict[str, Any]` objects (the `pricing_plans`). -/
def decodeObjList : List JVal → Except String (List (List (String × JVal)))
  | [] => .ok []
  | .obj fields :: rest =>
    exBind (decodeObjList rest) fun l => .ok (fields :: l)
  | _ => .error "expected an object"

/-- Decode an optional nested model: JSON `null` is `None`. -/
def decodeOpt {α : Type} (dec : JVal → Except String α) :
    Option JVal → Except String (Option α)
  | some .null => .ok none
  | some j => exBind (dec j) fun x => .ok (some x)
  | none => .error "missing field"

def HeroSection.encode (x : HeroSection) : JVal :=
  .obj [("headline", .str x.headline), ("subheadline", .str x.subheadline),
        ("cta_text", .str x.cta_text)]

def HeroSection.decode (j : JVal) : Except String HeroSection :=
  match j with
  | .obj fields =>
    exBind (getStr (fields.lookup "headline")) fun headline =>
    exBind (getStr (fields.lookup "subheadline")) fun subheadline =>
    exBind (getStr (fields.lookup "cta_text")) fun cta_text =>
    HeroSection.mk_validated headline subheadline cta_text
  | _ => .error "expected an object"

def Feature.encode (x : Feature) : JVal :=
  .obj [("title", .str x.title), ("description", .str x.description),
        ("icon", .str x.icon)]

def Feature.decode (j : JVal) : Except String Feature :=
  match j with
  | .obj fields =>
    exBind (getStr (fields.lookup "title")) fun title =>
    exBind (getStr (fields.lookup "description")) fun description =>
    exBind (getStr (fields.lookup "icon")) fun icon =>
    Feature.mk_validated title description icon
  | _ => .error "expected an object"

/-- Decode a JSON array of features. -/
def decodeFeatureList : List JVal → Except String (List Feature)
  | [] => .ok []
  | j :: rest =>
    exBind (Feature.decode j) fun f =>
    exBind (decodeFeatureList rest) fun fs => .ok (f :: fs)

def Testimonial.encode (x : Testimonial) : JVal :=
  .obj [("quote", .str x.quote), ("author", .str x.author), ("role", .str x.role)]

def Testimonial.decode (j : JVal) : Except String Testimonial :=
  match j with
  | .obj fields =>
    exBind (getStr (fields.lookup "quote")) fun quote =>
    exBind (getStr (fields.lookup "author")) fun author =>
    exBind (getStr (fields.lookup "role")) fun role =>
    Testimonial.mk_validated quote author role
  | _ => .error "expected an object"

def ColorPalette.encode (x : ColorPalette) : JVal :=
  .obj [("primary", .str x.primary), ("secondary", .str x.secondary),
        ("accent", .str x.accent), ("background", .str x.background),
        ("text", .str x.text)]

def ColorPalette.decode (j : JVal) : Except String ColorPalette :=
  match j with
  | .obj fields =>
    exBind (getStr (fields.lookup "primary")) fun primary =>
    exBind (getStr (fields.lookup "secondary")) fun secondary =>
    exBind (getStr (fields.lookup "accent")) fun accent =>
    exBind (getStr (fields.lookup "background")) fun background =>
    exBind (getStr (fields.lookup "text")) fun text =>
    ColorPalette.mk_validated primary secondary accent background text
  | _ => .error "expected an object"

def Typography.encode (x : Typography) : JVal :=
  .obj [("heading", .str x.heading), ("body", .str x.body)]

def Typography.decode (j : JVal) : Except String Typography :=
  match j with
  | .obj fields =>
    exBind (getStr (fields.lookup "heading")) fun heading =>
    exBind (getStr (fields.lookup "body")) fun body =>
    Typography.mk_validated heading body
  | _ => .error "expected an object"

def BrandIdentity.encode (x : BrandIdentity) : JVal :=
  .obj [("colors", x.colors.encode), ("fonts", x.fonts.encode),
        ("tone_rules", encodeStrList x.tone_rules)]

def BrandIdentity.decode (j : JVal) : Except String BrandIdentity :=
  match j with
  | .obj fields =>
    exBind (match fields.lookup "colors" with
      | some jc => ColorPalette.decode jc
      | none => .error "missing colors") fun colors =>
    exBind (match fields.lookup "fonts" with
      | some jf => Typography.decode jf
      | none => .error "missing fonts") fun fonts =>
    exBind (getStrList (fields.lookup "tone_rules")) fun tone_rules =>
    BrandIdentity.mk_validated colors fonts tone_rules
  | _ => .error "expected an object"

def ContentVariants.encode (x : ContentVariants) : JVal :=
  .obj [("headlines", encodeStrList x.headlines), ("ctas", encodeStrList x.ctas)]

def ContentVariants.decode (j : JVal) : Except String ContentVariants :=
  match j with
  | .obj fields =>
    exBind (getStrList (fields.lookup "headlines")) fun headlines =>
    exBind (getStrList (fields.lookup "ctas")) fun ctas =>
    ContentVariants.mk_validated headlines ctas
  | _ => .error "expected an object"

def SectionsConfig.encode (x : SectionsConfig) : JVal :=
  .obj [("pricing", .bool x.pricing), ("faq", .bool x.faq),
        ("logos", .bool x.logos), ("screenshots", .bool x.screenshots),
        ("feature_grid", .bool x.feature_grid), ("stats", .bool x.stats)]

def SectionsConfig.decode (j : JVal) : Except String SectionsConfig :=
  match j with
  | .obj fields =>
    exBind (getBool (fields.lookup "pricing")) fun pricing =>
    exBind (getBool (fields.lookup "faq")) fun faq =>
    exBind (getBool (fields.lookup "logos")) fun logos =>
    exBind (getBool (fields.lookup "screenshots")) fun screenshots =>
    exBind (getBool (fields.lookup "feature_grid")) fun feature_grid =>
    exBind (getBool (fields.lookup "stats")) fun stats =>
    .ok ⟨pricing, faq, logos, screenshots, feature_grid, stats⟩
  | _ => .error "expected an object"

def LandingContent.encode (x : LandingContent) : JVal :=
  .obj [("hero", x.hero.encode),
        ("features", .arr (x.features.map Feature.encode)),
        ("testimonial", x.testimonial.encode),
        ("footer_cta", .str x.footer_cta),
        ("variants", x.variants.encode),
        ("sections", x.sections.encode),
        ("faq_items", .arr (x.faq_items.map fun ps => .obj (ps.map fun p => (p.1, .str p.2)))),
        ("pricing_plans", .arr (x.pricing_plans.map fun ps => .obj ps))]

def LandingContent.decode (j : JVal) : Except String LandingContent :=
  match j with
  | .obj fields =>
    exBind (match fields.lookup "hero" with
      | some jh => HeroSection.decode jh
      | none => .error "missing hero") fun hero =>
    exBind (match fields.lookup "features" with
      | some (.arr l) => decodeFeatureList l
      | _ => .error "expected an array") fun features =>
    exBind (match fields.lookup "testimonial" with
      | some jt => Testimonial.decode jt
      | none => .error "missing testimonial") fun testimonial =>
    exBind (getStr (fields.lookup "footer_cta")) fun footer_cta =>
    exBind (match fields.lookup "variants" with
      | some jv => ContentVariants.decode jv
      | none => .error "missing variants") fun variants =>
    exBind (match fields.lookup "sections" with
      | some js => SectionsConfig.decode js
      | none => .error "missing sections") fun sections =>
    exBind (match fields.lookup "faq_items" with
      | some (.arr l) => decodeStrObjList l
      | _ => .error "expected an array") fun faq_items =>
    exBind (match fields.lookup "pricing_plans" with
      | some (.arr l) => decodeObjList l
      | _ => .error "expected an array") fun pricing_plans =>
    LandingContent.mk_validated hero features testimonial footer_cta variants
      sections faq_items pricing_plans
  | _ => .error "expected an object"

def AssetSlots.encode (x : AssetSlots) : JVal :=
  .obj [("hero_image_prompt", match x.hero_image_prompt with
          | some s => .str s
          | none => .null),
        ("hero_image_alt", match x.hero_image_alt with
          | some s => .str s
          | none => .null),
        ("og_image_prompt", match x.og_image_prompt with
          | some s => .str s
          | none => .null),
        ("logo_url", match x.logo_url with
          | some s => .str s
          | none => .null),
        ("screenshot_prompts", encodeStrList x.screenshot_prompts)]

def AssetSlots.decode (j : JVal) : Except String AssetSlots :=
  match j with
  | .obj fields =>
    exBind (getOptStr (fields.lookup "hero_image_prompt")) fun hero_image_prompt =>
    exBind (getOptStr (fields.lookup "hero_image_alt")) fun hero_image_alt =>
    exBind (getOptStr (fields.lookup "og_image_prompt")) fun og_image_prompt =>
    exBind (getOptStr (fields.lookup "logo_url")) fun logo_url =>
    exBind (getStrList (fields.lookup "screenshot_prompts")) fun screenshot_prompts =>
    AssetSlots.mk_validated hero_image_prompt hero_image_alt og_image_prompt
      logo_url screenshot_prompts
  | _ => .error "expected an object"

def RenderConfig.encode (x : RenderConfig) : JVal :=
  .obj [("template_type", .str x.template_type), ("variant_id", .int x.variant_id)]

def RenderConfig.decode (j : JVal) : Except String RenderConfig :=
  match j with
  | .obj fields =>
    exBind (getStr (fields.lookup "template_type")) fun template_type =>
    exBind (getInt (fields.lookup "variant_id")) fun variant_id =>
    RenderConfig.mk_validated template_type variant_id
  | _ => .error "expected an object"

def GenerationMeta.encode (x : GenerationMeta) : JVal :=
  .obj [("schema_version", .str x.schema_version),
        ("generated_at", .str x.generated_at),
        ("pipeline_steps", encodeStrList x.pipeline_steps)]

def GenerationMeta.decode (j : JVal) : Except String GenerationMeta :=
  match j with
  | .obj fields =>
    exBind (getStr (fields.lookup "schema_version")) fun schema_version =>
    exBind (getStr (fields.lookup "generated_at")) fun generated_at =>
    exBind (getStrList (fields.lookup "pipeline_steps")) fun pipeline_steps =>
    GenerationMeta.mk_validated schema_version generated_at pipeline_steps
  | _ => .error "expected an object"

def ProjectInfo.encode (x : ProjectInfo) : JVal :=
  .obj [("product_name", .str x.product_name),
        ("tagline", .str x.tagline),
        ("description", .str x.description),
        ("target_audience", .str x.target_audience),
        ("value_proposition", .str x.value_proposition),
        ("tone", .str x.tone),
        ("keywords", encodeStrList x.keywords)]

def ProjectInfo.decode (j : JVal) : Except String ProjectInfo :=
  match j with
  | .obj fields =>
    exBind (getStr (fields.lookup "product_name")) fun product_name =>
    exBind (getStr (fields.lookup "tagline")) fun tagline =>
    exBind (getStr (fields.lookup "description")) fun description =>
    exBind (getStr (fields.lookup "target_audience")) fun target_audience =>
    exBind (getStr (fields.lookup "value_proposition")) fun value_proposition =>
    exBind (getStr (fields.lookup "tone")) fun tone =>
    exBind (getStrList (fields.lookup "keywords")) fun keywords =>
    ProjectInfo.mk_validated product_name tagline description target_audience
      value_proposition tone keywords
  | _ => .error "expected an object"

/-- Serializer `CanonicalData.to_json` (the JSON tree produced by `model_dump_json`). -/
def CanonicalData.to_json (x : CanonicalData) : JVal :=
  .obj [("meta", x.meta.encode),
        ("project", x.project.encode),
        ("brand", match x.brand with
          | some b => b.encode
          | none => .null),
        ("content", match x.content with
          | some c => c.encode
          | none => .null),
        ("assets", x.assets.encode),
        ("render", x.render.encode)]

/-- Deserializer `CanonicalData.from_json` (`model_validate_json`): full re-validation of
every field and nested entity, then the aggregate model validator. -/
def CanonicalData.from_json (j : JVal) : Except String CanonicalData :=
  match j with
  | .obj fields =>
    exBind (match fields.lookup "meta" with
      | some jm => GenerationMeta.decode jm
      | none => .error "missing meta") fun meta =>
    exBind (match fields.lookup "project" with
      | some jp => ProjectInfo.decode jp
      | none => .error "missing project") fun project =>
    exBind (decodeOpt BrandIdentity.decode (fields.lookup "brand")) fun brand =>
    exBind (decodeOpt LandingContent.decode (fields.lookup "content")) fun content =>
    exBind (match fields.lookup "assets" with
      | some ja => AssetSlots.decode ja
      | none => .error "missing assets") fun assets =>
    exBind (match fields.lookup "render" with
      | some jr => RenderConfig.decode jr
      | none => .error "missing render") fun render =>
    CanonicalData.mk_validated meta project brand content assets render
  | _ => .error "expected an object"

/-! ## Validity: an entity is valid when the validation layer accepts it as
it stands (construction from its own field values succeeds and is the
identity).  These are exactly the documents the schema can produce. -/

def HeroSection.Valid (x : HeroSection) : Prop :=
  HeroSection.mk_validated x.headline x.subheadline x.cta_text = .ok x

def Feature.Valid (x : Feature) : Prop :=
  Feature.mk_validated x.title x.description x.icon = .ok x

def Testimonial.Valid (x : Testimonial) : Prop :=
  Testimonial.mk_validated x.quote x.author x.role = .ok x

def ColorPalette.Valid (x : ColorPalette) : Prop :=
  ColorPalette.mk_validated x.primary x.secondary x.accent x.background x.text = .ok x

def Typography.Valid (x : Typography) : Prop :=
  Typography.mk_validated x.heading x.body = .ok x

def BrandIdentity.Valid (x : BrandIdentity) : Prop :=
  x.colors.Valid ∧ x.fonts.Valid ∧
  BrandIdentity.mk_validated x.colors x.fonts x.tone_rules = .ok x

def ContentVariants.Valid (x : ContentVariants) : Prop :=
  ContentVariants.mk_validated x.headlines x.ctas = .ok x

def ProjectInfo.Valid (x : ProjectInfo) : Prop :=
  ProjectInfo.mk_validated x.product_name x.tagline x.description
    x.target_audience x.value_proposition x.tone x.keywords = .ok x

def LandingContent.Valid (x : LandingContent) : Prop :=
  x.hero.Valid ∧ (∀ f ∈ x.features, f.Valid) ∧ x.testimonial.Valid ∧
  x.variants.Valid ∧
  LandingContent.mk_validated x.hero x.features x.testimonial x.footer_cta
    x.variants x.sections x.faq_items x.pricing_plans = .ok x

def AssetSlots.Valid (x : AssetSlots) : Prop :=
  AssetSlots.mk_validated x.hero_image_prompt x.hero_image_alt
    x.og_image_prompt x.logo_url x.screenshot_prompts = .ok x

def RenderConfig.Valid (x : RenderConfig) : Prop :=
  RenderConfig.mk_validated x.template_type x.variant_id = .ok x

def GenerationMeta.Valid (x : GenerationMeta) : Prop :=
  GenerationMeta.mk_validated x.schema_version x.generated_at x.pipeline_steps = .ok x

def CanonicalData.Valid (x : CanonicalData) : Prop :=
  x.meta.Valid ∧ x.project.Valid ∧ (∀ b ∈ x.brand, b.Valid) ∧
  (∀ c ∈ x.content, c.Valid) ∧ x.assets.Valid ∧ x.render.Valid

/-! ## Pipeline driver (`src/orchestrator.py`)

The three content-producing stages call an external LLM; their outcomes are
parameters of the model.  `now` stands for the generation timestamp. -/

structure UserInput where
  product_name : String
  target_audience : String
  value_proposition : String
  tone : String
  additional_context : String
  template_type : String
deriving Repr, DecidableEq

structure PipelineResult where
  canonical_data : Option CanonicalData
  html : String
  success : Bool
  errors : List String
deriving Repr

/-- The canonical document as initialized after a successful onboarding
stage (`CanonicalData(project=..., render=...)` plus
`add_step("onboarding")`). -/
def initial_canonical (project_info : ProjectInfo) (user_input : UserInput)
    (now : String) : CanonicalData :=
  { meta := ⟨SCHEMA_VERSION, now, ["onboarding"]⟩
    project := project_info
    brand := none
    content := none
    assets := AssetSlots.default
    render := ⟨user_input.template_type, 0⟩ }

/-- Append a pipeline step to the document's stage log
(`CanonicalData.add_step`). -/
def add_step (d : CanonicalData) (step : String) : CanonicalData :=
  { d with meta := { d.meta with pipeline_steps := d.meta.pipeline_steps ++ [step] } }

/-- Method `LandingPipeline.run` from `orchestrator.py`, with the three stage
outcomes supplied as oracles: a Stage 1 failure aborts with no canonical
data; a Stage 2 failure substitutes `DefaultBrand.IDENTITY`, logs
`brand:fallback` and records a warning but continues; a Stage 3 failure
aborts keeping the partial document; otherwise the run completes with the
rendered html and `success` iff no error was recorded. -/
def LandingPipeline.run
    (onboarding_result : Except String ProjectInfo)
    (brand_result : ProjectInfo → Except String BrandIdentity)
    (landing_result : CanonicalData → Except String (LandingContent × String))
    (user_input : UserInput) (now : String) : PipelineResult :=
  match onboarding_result with
  | .error e =>
    { canonical_data := none, html := "", success := false,
      errors := ["OnboardingAgent failed: " ++ e] }
  | .ok project_info =>
    let canonical1 := initial_canonical project_info user_input now
    let afterBrand : CanonicalData × List String :=
      match brand_result project_info with
      | .ok brand_identity =>
        (add_step { canonical1 with brand := some brand_identity } "brand", [])
      | .error e =>
        (add_step { canonical1 with brand := some DefaultBrand.IDENTITY } "brand:fallback",
         ["BrandAgent failed (using defaults): " ++ e])
    match landing_result afterBrand.1 with
    | .ok content_html =>
      let canonical3 :=
        add_step { afterBrand.1 with content := some content_html.1 } "landing"
      { canonical_data := some canonical3, html := content_html.2,
        success := afterBrand.2.isEmpty, errors := afterBrand.2 }
    | .error e =>
      { canonical_data := some afterBrand.1, html := "", success := false,
        errors := afterBrand.2 ++ ["LandingAgent failed: " ++ e] }

/-! ## Concrete example document (spec §8 end-to-end example) -/

def exampleProject : ProjectInfo :=
  ⟨"TestProduct", "Test everything fast", "A product for testing products end to end.",
   "QA engineers", "Ship with confidence", "professional",
   ["testing", "quality", "automation"]⟩

def exampleContent : LandingContent :=
  { hero := ⟨"Welcome to TestProduct", "The easiest way to test your product", "Get Started"⟩
    features := [⟨"Fast setup", "Install and run in under a minute", "rocket"⟩,
                 ⟨"Secure", "Your data stays encrypted end to end", "shield"⟩,
                 ⟨"Insightful", "Dashboards that surface what matters", "chart"⟩]
    testimonial := ⟨"This tool changed how our team ships products.", "Jane Doe", "CTO, Acme"⟩
    footer_cta := "Start your free trial"
    variants := ⟨["Alt One", "Alt Two"], ["Try Now"]⟩
    sections := SectionsConfig.default
    faq_items := []
    pricing_plans := [] }

def exampleDoc : CanonicalData :=
  { meta := ⟨"1.2.1", "2025-01-01T00:00:00", ["onboarding", "brand", "landing"]⟩
    project := exampleProject
    brand := some DefaultBrand.IDENTITY
    content := some exampleContent
    assets := AssetSlots.default
    render := ⟨"saas", 0⟩ }

def noContentDoc : CanonicalData :=
  { meta := ⟨"1.2.1", "2025-01-01T00:00:00", ["onboarding"]⟩
    project := exampleProject
    brand := none
    content := none
    assets := AssetSlots.default
    render := ⟨"saas", 0⟩ }

end LandingGen

namespace LandingGen

/-! ## Helper lemmas about the resolution engine -/

theorem resolve_variant_zero (dflt : String) (vs : List String) :
    resolve_variant dflt vs 0 = dflt := by
  simp [resolve_variant]

theorem resolve_variant_pos (dflt : String) (vs : List String) (w : Int)
    (h1 : 1 ≤ w) (h2 : w ≤ vs.length) :
    resolve_variant dflt vs w = vs.getD (w - 1).toNat dflt := by
  have hne : vs.isEmpty = false := by
    cases vs with
    | nil => simp at h2; omega
    | cons a l => simp
  simp only [resolve_variant]
  rw [if_neg (by simp [hne]; omega), if_pos (by constructor <;> omega)]

theorem resolve_variant_in_bounds (dflt : String) (vs : List String) (v : Nat)
    (h1 : 1 ≤ v) (h2 : v ≤ vs.length) :
    resolve_variant dflt vs (v : Int) = vs.getD (v - 1) dflt := by
  rw [resolve_variant_pos dflt vs (v : Int) (by exact_mod_cast h1) (by exact_mod_cast h2)]
  congr 1
  omega

theorem resolve_variant_above_bounds (dflt : String) (vs : List String) (v : Nat)
    (h : vs.length < v) :
    resolve_variant dflt vs (v : Int) = dflt := by
  simp only [resolve_variant]
  split_ifs with h1 h2
  · rfl
  · exfalso
    push_cast at h2
    omega
  · rfl

theorem clamp_variant_id_eq (cv : ContentVariants) (v : Nat) :
    clamp_variant_id (v : Int) cv =
      if v ≤ cv.headlines.length then (v : Int) else 0 := by
  have hmax : ((cv.max_variant_id : Nat) : Int) = (cv.headlines.length : Int) := by
    simp only [ContentVariants.max_variant_id]
    rcases cv.headlines with _ | ⟨a, l⟩ <;> simp
  simp only [clamp_variant_id, hmax]
  by_cases h1 : (v : Int) = 0
  · have hv : v = 0 := by omega
    subst hv
    simp
  · rw [if_neg h1]
    by_cases h2 : (v : Int) > (cv.headlines.length : Int)
    · rw [if_pos h2, if_neg (by omega)]
    · rw [if_neg h2, if_pos (by omega)]

theorem max_variant_id_eq_length (cv : ContentVariants) :
    cv.max_variant_id = cv.headlines.length := by
  simp only [ContentVariants.max_variant_id]
  rcases cv.headlines with _ | ⟨a, l⟩ <;> simp

theorem template_file_mem_standard_env (t : String) :
    (TEMPLATE_FILES t).getD "saas.html.j2" ∈ standard_env := by
  simp only [TEMPLATE_FILES, standard_env]
  split_ifs <;> simp

theorem render_landing_content_some (env : List String) (data : CanonicalData)
    (c : LandingContent) (t_ov : Option String) (v_ov : Option Int)
    (h : data.content = some c)
    (henv : (TEMPLATE_FILES (t_ov.getD data.render.template_type)).getD "saas.html.j2" ∈ env) :
    render_landing env data t_ov v_ov = .ok (resolve_view data c t_ov v_ov) := by
  simp only [render_landing, h]
  rw [if_pos henv]

theorem render_landing_content_none (env : List String) (data : CanonicalData)
    (t_ov : Option String) (v_ov : Option Int) (h : data.content = none) :
    render_landing env data t_ov v_ov =
      .error ⟨"CanonicalData.content is required for rendering", "E303"⟩ := by
  simp only [render_landing, h]

theorem clamp_agrees_with_effective (data : CanonicalData) (c : LandingContent)
    (h : data.content = some c) :
    clamp_variant_id data.render.variant_id c.variants = data.get_effective_variant_id := by
  simp only [clamp_variant_id, CanonicalData.get_effective_variant_id, h]
  by_cases h1 : data.render.variant_id = 0
  · rw [if_pos h1, h1, if_neg (by omega)]
  · rw [if_neg h1]

end LandingGen

namespace LandingGen

/-- C1: for a document whose content is present, the rendered headline is the
default `hero.headline` for variant id 0, the alternate
`variants.headlines[v-1]` for `v` in `1..len(headlines)`, and silently falls
back to the default for any larger `v`. -/
theorem headline_variant_resolution (data : CanonicalData) (c : LandingContent) (v : Nat)
    (h : data.content = some c) :
    ∃ ctx, render_landing standard_env data none (some (v : Int)) = Except.ok ctx ∧
      ctx.headline =
        (if 1 ≤ v ∧ v ≤ c.variants.headlines.length
         then c.variants.headlines.getD (v - 1) c.hero.headline
         else c.hero.headline) := by
  refine ⟨_, render_landing_content_some _ _ _ _ _ h (template_file_mem_standard_env _), ?_⟩
  simp only [resolve_view, Option.getD_some]
  rw [clamp_variant_id_eq]
  by_cases hb : v ≤ c.variants.headlines.length
  · rw [if_pos hb]
    by_cases h1 : 1 ≤ v
    · rw [resolve_variant_in_bounds _ _ _ h1 hb, if_pos ⟨h1, hb⟩]
    · have hv : v = 0 := by omega
      subst hv
      rw [if_neg (by omega)]
      simpa using resolve_variant_zero c.hero.headline c.variants.headlines
  · rw [if_neg hb, if_neg (fun hc => hb hc.2)]
    exact resolve_variant_zero _ _

theorem headline_variant_resolution_witness :
    exampleDoc.content = some exampleContent ∧
    (∃ ctx, render_landing standard_env exampleDoc none (some ((1 : Nat) : Int)) = Except.ok ctx ∧
      ctx.headline = "Alt One") ∧
    (∃ ctx, render_landing standard_env exampleDoc none (some ((2 : Nat) : Int)) = Except.ok ctx ∧
      ctx.headline = "Alt Two") ∧
    (∃ ctx, render_landing standard_env exampleDoc none (some ((99 : Nat) : Int)) = Except.ok ctx ∧
      ctx.headline = "Welcome to TestProduct") := by
  refine ⟨rfl, ?_, ?_, ?_⟩
  · simpa using headline_variant_resolution exampleDoc exampleContent 1 rfl
  · simpa using headline_variant_resolution exampleDoc exampleContent 2 rfl
  · simpa using headline_variant_resolution exampleDoc exampleContent 99 rfl

end LandingGen

namespace LandingGen

/-- C2: the clamped effective variant id computed by
`CanonicalData.get_effective_variant_id` and by the renderer's clamp step
agree, and the resolved headline follows the same rule: effective id 0
resolves the default headline, an in-range effective id `v > 0` resolves
`variants.headlines[v-1]`. -/
theorem clamp_and_resolution_consistency (data : CanonicalData) (c : LandingContent)
    (h : data.content = some c) :
    clamp_variant_id data.render.variant_id c.variants = data.get_effective_variant_id ∧
    ∃ ctx, render_landing standard_env data none none = Except.ok ctx ∧
      ctx.effective_variant_id = data.get_effective_variant_id ∧
      (data.get_effective_variant_id = 0 → ctx.headline = c.hero.headline) ∧
      (0 < data.get_effective_variant_id →
        ctx.headline = c.variants.headlines.getD
          (data.get_effective_variant_id - 1).toNat c.hero.headline) := by
  have hagree := clamp_agrees_with_effective data c h
  refine ⟨hagree, _,
    render_landing_content_some _ _ _ _ _ h (template_file_mem_standard_env _), ?_, ?_, ?_⟩
  · simp only [resolve_view, Option.getD_none]
    exact hagree
  · intro h0
    simp only [resolve_view, Option.getD_none]
    rw [hagree, h0]
    exact resolve_variant_zero _ _
  · intro hpos
    simp only [resolve_view, Option.getD_none]
    rw [hagree]
    have hlen : ((c.variants.max_variant_id : Nat) : Int) = (c.variants.headlines.length : Int) := by
      exact_mod_cast max_variant_id_eq_length c.variants
    simp only [CanonicalData.get_effective_variant_id, h] at hpos ⊢
    split_ifs at hpos ⊢ with hgt
    · exact absurd hpos (by omega)
    · exact resolve_variant_pos _ _ _ (by omega) (by omega)

theorem clamp_and_resolution_consistency_witness :
    exampleDoc.content = some exampleContent ∧
    (clamp_variant_id exampleDoc.render.variant_id exampleContent.variants =
      exampleDoc.get_effective_variant_id ∧
    ∃ ctx, render_landing standard_env exampleDoc none none = Except.ok ctx ∧
      ctx.effective_variant_id = exampleDoc.get_effective_variant_id ∧
      (exampleDoc.get_effective_variant_id = 0 → ctx.headline = exampleContent.hero.headline) ∧
      (0 < exampleDoc.get_effective_variant_id →
        ctx.headline = exampleContent.variants.headlines.getD
          (exampleDoc.get_effective_variant_id - 1).toNat exampleContent.hero.headline)) :=
  ⟨rfl, clamp_and_resolution_consistency exampleDoc exampleContent rfl⟩

/-- C3: `render_landing` fails exactly when `content` is absent, with the
single error kind `E303` (missing required content); with `content` present
it succeeds for every template override and every variant override, however
unknown or out of range. -/
theorem resolution_failure_semantics (data : CanonicalData)
    (t_ov : Option String) (v_ov : Option Int) :
    (data.content = none →
      render_landing standard_env data t_ov v_ov =
        Except.error ⟨"CanonicalData.content is required for rendering", "E303"⟩) ∧
    (∀ c, data.content = some c →
      render_landing standard_env data t_ov v_ov = Except.ok (resolve_view data c t_ov v_ov)) := by
  refine ⟨fun h => render_landing_content_none _ _ _ _ h, fun c h => ?_⟩
  exact render_landing_content_some _ _ _ _ _ h (template_file_mem_standard_env _)

theorem resolution_failure_semantics_witness :
    render_landing standard_env noContentDoc (some "unknown-template") (some 99) =
      Except.error ⟨"CanonicalData.content is required for rendering", "E303"⟩ ∧
    render_landing standard_env exampleDoc (some "unknown-template") (some 99) =
      Except.ok (resolve_view exampleDoc exampleContent (some "unknown-template") (some 99)) :=
  ⟨(resolution_failure_semantics noContentDoc (some "unknown-template") (some 99)).1 rfl,
   (resolution_failure_semantics exampleDoc (some "unknown-template") (some 99)).2
     exampleContent rfl⟩

/-- C10: when the alternate CTA list is shorter than the alternate headline
list, a variant id in range for headlines but out of range for CTAs yields
the alternate headline together with the default CTA, with no clamping of
the effective id and no error. -/
theorem headline_cta_fall_back_independently (data : CanonicalData) (c : LandingContent)
    (v : Nat) (h : data.content = some c) (h1 : 1 ≤ v)
    (h2 : v ≤ c.variants.headlines.length) (h3 : c.variants.ctas.length < v) :
    ∃ ctx, render_landing standard_env data none (some (v : Int)) = Except.ok ctx ∧
      ctx.effective_variant_id = (v : Int) ∧
      ctx.headline = c.variants.headlines.getD (v - 1) c.hero.headline ∧
      ctx.cta_text = c.hero.cta_text := by
  refine ⟨_, render_landing_content_some _ _ _ _ _ h (template_file_mem_standard_env _),
    ?_, ?_, ?_⟩
  · simp only [resolve_view, Option.getD_some]
    rw [clamp_variant_id_eq, if_pos h2]
  · simp only [resolve_view, Option.getD_some]
    rw [clamp_variant_id_eq, if_pos h2, resolve_variant_in_bounds _ _ _ h1 h2]
  · simp only [resolve_view, Option.getD_some]
    rw [clamp_variant_id_eq, if_pos h2, resolve_variant_above_bounds _ _ _ h3]

theorem headline_cta_fall_back_independently_witness :
    exampleDoc.content = some exampleContent ∧ 1 ≤ 2 ∧
    2 ≤ exampleContent.variants.headlines.length ∧ exampleContent.variants.ctas.length < 2 ∧
    (∃ ctx, render_landing standard_env exampleDoc none (some ((2 : Nat) : Int)) = Except.ok ctx ∧
      ctx.effective_variant_id = ((2 : Nat) : Int) ∧
      ctx.headline = exampleContent.variants.headlines.getD (2 - 1) exampleContent.hero.headline ∧
      ctx.cta_text = exampleContent.hero.cta_text) :=
  ⟨rfl, by decide, by decide, by decide,
   headline_cta_fall_back_independently exampleDoc exampleContent 2 rfl (by decide) (by decide)
     (by decide)⟩

end LandingGen

namespace LandingGen

theorem mapM_ok_of_forall_ok {α β : Type} (l : List α) (f : α → Except RenderErr β)
    (g : α → β) (hf : ∀ x ∈ l, f x = .ok (g x)) : l.mapM f = .ok (l.map g) := by
  induction l with
  | nil => rfl
  | cons x xs ih =>
    rw [List.mapM_cons, hf x (by simp), ih (fun y hy => hf y (by simp [hy]))]
    rfl

theorem all_variant_pairs_length (n : Nat) :
    (all_variant_pairs n).length = 3 * (n + 1) := by
  simp [all_variant_pairs, TEMPLATE_TYPES]
  omega

theorem all_variant_pairs_keys_nodup (n : Nat) (hn : n ≤ 3) :
    ((all_variant_pairs n).map (fun p => p.1 ++ "_v" ++ toString p.2)).Nodup := by
  interval_cases n <;> decide

/-- C7: for a document with content present and `k` alternate headlines,
`render_all_variants` yields exactly `3 * (k+1)` entries — the three known
templates crossed with variant ids `0..k` — keyed uniquely as
`template_type ++ "_v" ++ variant_id`, each entry being exactly the result
of the single-resolution path `render_landing` for that pair.  (`k ≤ 3` is
the schema bound `max_length=3` on alternate headlines.) -/
theorem bulk_resolution_count_and_keys (data : CanonicalData) (c : LandingContent)
    (h : data.content = some c) (hk : c.variants.headlines.length ≤ 3) :
    ∃ entries, render_all_variants standard_env data = Except.ok entries ∧
      entries.length = 3 * (c.variants.headlines.length + 1) ∧
      (entries.map Prod.fst).Nodup ∧
      entries = (all_variant_pairs c.variants.headlines.length).map
        (fun p => (p.1 ++ "_v" ++ toString p.2,
                   resolve_view data c (some p.1) (some (p.2 : Int)))) ∧
      (∀ p ∈ all_variant_pairs c.variants.headlines.length,
        render_landing standard_env data (some p.1) (some (p.2 : Int)) =
          Except.ok (resolve_view data c (some p.1) (some (p.2 : Int)))) := by
  have hrender : ∀ p ∈ all_variant_pairs c.variants.headlines.length,
      render_landing standard_env data (some p.1) (some (p.2 : Int)) =
        Except.ok (resolve_view data c (some p.1) (some (p.2 : Int))) :=
    fun p _ => render_landing_content_some _ _ _ _ _ h (template_file_mem_standard_env _)
  have hnum : (match data.content with
      | some c => if c.variants.headlines.isEmpty then 0 else c.variants.headlines.length
      | none => 0) = c.variants.headlines.length := by
    rw [h]
    rcases hl : c.variants.headlines with _ | ⟨a, l⟩ <;> simp [hl]
  refine ⟨_, ?_, ?_, ?_, rfl, hrender⟩
  · simp only [render_all_variants, hnum]
    exact mapM_ok_of_forall_ok _ _ _ (fun p hp => by rw [hrender p hp]; rfl)
  · rw [List.length_map, all_variant_pairs_length]
  · rw [List.map_map]
    exact all_variant_pairs_keys_nodup _ hk

theorem bulk_resolution_count_and_keys_witness :
    exampleDoc.content = some exampleContent ∧
    exampleContent.variants.headlines.length ≤ 3 ∧
    (∃ entries, render_all_variants standard_env exampleDoc = Except.ok entries ∧
      entries.length = 3 * (exampleContent.variants.headlines.length + 1) ∧
      (entries.map Prod.fst).Nodup ∧
      entries = (all_variant_pairs exampleContent.variants.headlines.length).map
        (fun p => (p.1 ++ "_v" ++ toString p.2,
                   resolve_view exampleDoc exampleContent (some p.1) (some (p.2 : Int)))) ∧
      (∀ p ∈ all_variant_pairs exampleContent.variants.headlines.length,
        render_landing standard_env exampleDoc (some p.1) (some (p.2 : Int)) =
          Except.ok (resolve_view exampleDoc exampleContent (some p.1) (some (p.2 : Int))))) :=
  ⟨rfl, by decide, bulk_resolution_count_and_keys exampleDoc exampleContent rfl (by decide)⟩

end LandingGen

namespace LandingGen

/-- C4: constructing `GenerationMeta` succeeds exactly when the
schema-version string has at least two dot-separated components and its
major and minor components equal those of the running `SCHEMA_VERSION`;
fewer than two components, or a major/minor difference, is a validation
error, while a difference confined to the patch component is accepted. -/
theorem schema_version_gate (v generated_at : String) (steps : List String) :
    (GenerationMeta.mk_validated v generated_at steps = Except.ok ⟨v, generated_at, steps⟩ ↔
      2 ≤ (pySplit sepDot v).length ∧
      (pySplit sepDot v).getD 0 "" = (pySplit sepDot SCHEMA_VERSION).getD 0 "" ∧
      (pySplit sepDot v).getD 1 "" = (pySplit sepDot SCHEMA_VERSION).getD 1 "") ∧
    ((pySplit sepDot v).length < 2 →
      GenerationMeta.mk_validated v generated_at steps =
        Except.error ("Invalid schema_version format: " ++ v)) ∧
    (2 ≤ (pySplit sepDot v).length →
      ((pySplit sepDot v).getD 0 "" ≠ (pySplit sepDot SCHEMA_VERSION).getD 0 "" ∨
       (pySplit sepDot v).getD 1 "" ≠ (pySplit sepDot SCHEMA_VERSION).getD 1 "") →
      GenerationMeta.mk_validated v generated_at steps =
        Except.error ("Schema version mismatch: got " ++ v ++ ", expected " ++
          SCHEMA_VERSION ++ ". Major.minor must match.")) := by
  simp only [GenerationMeta.mk_validated, GenerationMeta.validate_schema_version]
  refine ⟨?_, ?_, ?_⟩
  · split_ifs with h1 h2
    · simp only [Except.map]
      constructor
      · intro hc
        exact absurd hc (by simp)
      · intro hc
        omega
    · simp only [Except.map]
      constructor
      · intro hc
        exact absurd hc (by simp)
      · intro hc
        rcases h2 with h2 | h2
        · exact absurd hc.2.1 h2
        · exact absurd hc.2.2 h2
    · simp only [Except.map]
      push_neg at h2
      simp only [Except.ok.injEq, true_iff]
      exact ⟨by omega, h2.1, h2.2⟩
  · intro hlen
    rw [if_pos hlen]
    rfl
  · intro hlen hmm
    rw [if_neg (by omega), if_pos hmm]
    rfl

theorem schema_version_gate_witness :
    GenerationMeta.mk_validated "1.2.9" "t" [] = Except.ok ⟨"1.2.9", "t", []⟩ ∧
    GenerationMeta.mk_validated "1.3.1" "t" [] =
      Except.error ("Schema version mismatch: got 1.3.1, expected 1.2.1. Major.minor must match.") ∧
    GenerationMeta.mk_validated "2.2.1" "t" [] =
      Except.error ("Schema version mismatch: got 2.2.1, expected 1.2.1. Major.minor must match.") ∧
    GenerationMeta.mk_validated "1" "t" [] =
      Except.error ("Invalid schema_version format: 1") := by
  refine ⟨?_, ?_, ?_, ?_⟩
  · exact (schema_version_gate "1.2.9" "t" []).1.mpr (by decide)
  · simpa using (schema_version_gate "1.3.1" "t" []).2.2 (by decide) (by decide)
  · simpa using (schema_version_gate "2.2.1" "t" []).2.2 (by decide) (by decide)
  · simpa using (schema_version_gate "1" "t" []).2.1 (by decide)

end LandingGen

namespace LandingGen

/-- C5: fonts and icons are closed-world — `Typography` construction
succeeds exactly for allow-listed fonts and otherwise fails with an error
naming `ALLOWED_FONTS`; `Feature`'s icon is normalized (lowercased and
trimmed) and must be allow-listed, otherwise construction fails with an
error naming `ALLOWED_ICONS`; every allow-listed value succeeds, and the
stored icon is the normalized form. -/
theorem font_icon_closed_world :
    (∀ v, Typography.validate_font v = Except.ok v ↔ v ∈ ALLOWED_FONTS) ∧
    (∀ v, v ∉ ALLOWED_FONTS → Typography.validate_font v =
      Except.error ("Font '" ++ v ++ "' not in ALLOWED_FONTS. Valid fonts: " ++
        String.intercalate ", " SORTED_FONTS)) ∧
    (∀ h b, h ∈ ALLOWED_FONTS → b ∈ ALLOWED_FONTS →
      Typography.mk_validated h b = Except.ok ⟨h, b⟩) ∧
    (∀ h b, h ∉ ALLOWED_FONTS ∨ b ∉ ALLOWED_FONTS →
      ∀ t, Typography.mk_validated h b ≠ Except.ok t) ∧
    (∀ v i, Feature.validate_icon v = Except.ok i →
      i = pyStrip (pyLower v) ∧ i ∈ ALLOWED_ICONS) ∧
    (∀ v, pyStrip (pyLower v) ∉ ALLOWED_ICONS → Feature.validate_icon v =
      Except.error ("Icon '" ++ pyStrip (pyLower v) ++ "' not in ALLOWED_ICONS. Valid icons: " ++
        String.intercalate ", " SORTED_ICONS)) ∧
    (∀ i ∈ ALLOWED_ICONS, Feature.validate_icon i = Except.ok i) ∧
    (∀ t d i f, Feature.mk_validated t d i = Except.ok f →
      f.icon = pyStrip (pyLower (pyStrip i)) ∧ f.icon ∈ ALLOWED_ICONS) := by
  have hicon : ∀ v i, Feature.validate_icon v = Except.ok i →
      i = pyStrip (pyLower v) ∧ i ∈ ALLOWED_ICONS := by
    intro v i hv
    simp only [Feature.validate_icon] at hv
    by_cases h : pyStrip (pyLower v) ∈ ALLOWED_ICONS
    · rw [if_pos h] at hv
      cases hv
      exact ⟨rfl, h⟩
    · rw [if_neg h] at hv
      exact Except.noConfusion hv
  refine ⟨?_, ?_, ?_, ?_, hicon, ?_, ?_, ?_⟩
  · intro v
    simp only [Typography.validate_font]
    split_ifs with h
    · simp [h]
    · simp [h]
  · intro v hv
    simp only [Typography.validate_font]
    rw [if_neg hv]
  · intro h b hh hb
    simp only [Typography.mk_validated, Typography.validate_font]
    rw [if_pos hh, if_pos hb]
  · intro h b hnot t hc
    simp only [Typography.mk_validated, Typography.validate_font] at hc
    rcases hnot with hn | hn
    · rw [if_neg hn] at hc
      exact Except.noConfusion hc
    · by_cases hh : h ∈ ALLOWED_FONTS
      · rw [if_pos hh, if_neg hn] at hc
        exact Except.noConfusion hc
      · rw [if_neg hh] at hc
        exact Except.noConfusion hc
  · intro v hv
    simp only [Feature.validate_icon]
    rw [if_neg hv]
  · intro i hi
    have hnorm : pyStrip (pyLower i) = i := by
      fin_cases hi <;> decide
    simp only [Feature.validate_icon]
    rw [hnorm, if_pos hi]
  · intro t d i f hf
    simp only [Feature.mk_validated, Feature.validate_icon] at hf
    by_cases h1 : 2 ≤ (pyStrip t).length ∧ (pyStrip t).length ≤ 50
    · rw [if_neg (not_not_intro h1)] at hf
      by_cases h2 : 10 ≤ (pyStrip d).length ∧ (pyStrip d).length ≤ 150
      · rw [if_neg (not_not_intro h2)] at hf
        by_cases h3 : pyStrip (pyLower (pyStrip i)) ∈ ALLOWED_ICONS
        · rw [if_pos h3] at hf
          have hf2 : Feature.mk (pyStrip t) (pyStrip d) (pyStrip (pyLower (pyStrip i))) = f :=
            Except.ok.inj hf
          subst hf2
          exact ⟨rfl, h3⟩
        · rw [if_neg h3] at hf
          exact Except.noConfusion hf
      · rw [if_pos h2] at hf
        exact Except.noConfusion hf
    · rw [if_pos h1] at hf
      exact Except.noConfusion hf

theorem font_icon_closed_world_witness :
    ("Inter" ∈ ALLOWED_FONTS ∧ Typography.mk_validated "Inter" "Roboto" =
      Except.ok ⟨"Inter", "Roboto"⟩) ∧
    ("Comic Sans" ∉ ALLOWED_FONTS ∧ Typography.validate_font "Comic Sans" =
      Except.error ("Font 'Comic Sans' not in ALLOWED_FONTS. Valid fonts: " ++
        String.intercalate ", " SORTED_FONTS)) ∧
    ("rocket" ∈ ALLOWED_ICONS ∧ Feature.validate_icon "rocket" = Except.ok "rocket") ∧
    (pyStrip (pyLower " unknown-icon ") ∉ ALLOWED_ICONS ∧
      Feature.validate_icon " unknown-icon " =
        Except.error ("Icon '" ++ pyStrip (pyLower " unknown-icon ") ++
          "' not in ALLOWED_ICONS. Valid icons: " ++
          String.intercalate ", " SORTED_ICONS)) :=
  ⟨⟨by decide, font_icon_closed_world.2.2.1 "Inter" "Roboto" (by decide) (by decide)⟩,
   ⟨by decide, font_icon_closed_world.2.1 "Comic Sans" (by decide)⟩,
   ⟨by decide, font_icon_closed_world.2.2.2.2.2.2.1 "rocket" (by decide)⟩,
   ⟨by decide, font_icon_closed_world.2.2.2.2.2.1 " unknown-icon " (by decide)⟩⟩

end LandingGen

namespace LandingGen

/-- C8: when Stage 1 succeeds, Stage 2 fails and Stage 3 succeeds, the run
completes: the document carries the fixed default brand identity, the stage
log records `brand:fallback`, the warning is in the result's error list,
and the rendered html is still produced. -/
theorem brand_stage_failure_recovery
    (pi : ProjectInfo) (be : String)
    (brand_result : ProjectInfo → Except String BrandIdentity)
    (landing_result : CanonicalData → Except String (LandingContent × String))
    (ui : UserInput) (now : String) (content : LandingContent) (html : String)
    (hbrand : brand_result pi = Except.error be)
    (hland : landing_result
      (add_step { initial_canonical pi ui now with brand := some DefaultBrand.IDENTITY }
        "brand:fallback") = Except.ok (content, html)) :
    ∃ cd, (LandingPipeline.run (Except.ok pi) brand_result landing_result ui now).canonical_data
        = some cd ∧
      cd.brand = some DefaultBrand.IDENTITY ∧
      "brand:fallback" ∈ cd.meta.pipeline_steps ∧
      ("BrandAgent failed (using defaults): " ++ be) ∈
        (LandingPipeline.run (Except.ok pi) brand_result landing_result ui now).errors ∧
      (LandingPipeline.run (Except.ok pi) brand_result landing_result ui now).html = html ∧
      cd.content = some content := by
  simp only [LandingPipeline.run, hbrand, hland]
  refine ⟨_, rfl, ?_, ?_, ?_, ?_, ?_⟩
  all_goals simp [add_step, initial_canonical]

def exampleUserInput : UserInput :=
  ⟨"TestProduct", "QA engineers", "Ship with confidence", "professional", "", "saas"⟩

theorem brand_stage_failure_recovery_witness :
    (∃ cd, (LandingPipeline.run (Except.ok exampleProject)
        (fun _ => Except.error "LLM unavailable")
        (fun _ => Except.ok (exampleContent, "<html>page</html>"))
        exampleUserInput "2025-01-01T00:00:00").canonical_data = some cd ∧
      cd.brand = some DefaultBrand.IDENTITY ∧
      "brand:fallback" ∈ cd.meta.pipeline_steps ∧
      ("BrandAgent failed (using defaults): " ++ "LLM unavailable") ∈
        (LandingPipeline.run (Except.ok exampleProject)
          (fun _ => Except.error "LLM unavailable")
          (fun _ => Except.ok (exampleContent, "<html>page</html>"))
          exampleUserInput "2025-01-01T00:00:00").errors ∧
      (LandingPipeline.run (Except.ok exampleProject)
        (fun _ => Except.error "LLM unavailable")
        (fun _ => Except.ok (exampleContent, "<html>page</html>"))
        exampleUserInput "2025-01-01T00:00:00").html = "<html>page</html>" ∧
      cd.content = some exampleContent) :=
  brand_stage_failure_recovery exampleProject "LLM unavailable"
    (fun _ => Except.error "LLM unavailable")
    (fun _ => Except.ok (exampleContent, "<html>page</html>"))
    exampleUserInput "2025-01-01T00:00:00" exampleContent "<html>page</html>" rfl rfl

/-- C9 counterexample: the §3 constraints are not re-checked on assignment
for sub-entities — assigning an under-length headline to an existing
`HeroSection` succeeds and changes the entity (and the repository's own
tests assign an out-of-bounds `variant_id = 99` expecting success), even
though constructing a `HeroSection` with the same headline fails. -/
theorem revalidation_on_assignment_cex :
    HeroSection.mk_validated "x" "The easiest way to test" "Go" =
      Except.error "HeroSection.headline length out of bounds" ∧
    HeroSection.assign_headline ⟨"Welcome to TestProduct", "The easiest way to test", "Go"⟩ "x" =
      Except.ok ⟨"x", "The easiest way to test", "Go"⟩ ∧
    RenderConfig.assign_variant_id ⟨"saas", 0⟩ 99 = Except.ok ⟨"saas", 99⟩ := by
  refine ⟨?_, rfl, rfl⟩
  rfl

/-- C9 (amended): validation is enforced at construction, but re-validation
on assignment happens only on the aggregate root `CanonicalData` (whose
model validator deliberately accepts any variant id); sub-entities such as
`HeroSection` and `RenderConfig` store assigned values without re-checking
their constraints. -/
theorem revalidation_only_at_aggregate_root :
    (∀ h v, HeroSection.assign_headline h v = Except.ok { h with headline := v }) ∧
    (∀ r v, RenderConfig.assign_variant_id r v = Except.ok { r with variant_id := v }) ∧
    (∀ hl sh ct, ¬(5 ≤ (pyStrip hl).length ∧ (pyStrip hl).length ≤ 100) →
      HeroSection.mk_validated hl sh ct =
        Except.error "HeroSection.headline length out of bounds") ∧
    (∀ d r, CanonicalData.assign_render d r = Except.ok { d with render := r }) := by
  refine ⟨fun h v => rfl, fun r v => rfl, ?_, fun d r => rfl⟩
  intro hl sh ct hbad
  simp only [HeroSection.mk_validated]
  rw [if_pos hbad]

theorem revalidation_only_at_aggregate_root_witness :
    ¬(5 ≤ (pyStrip "x").length ∧ (pyStrip "x").length ≤ 100) ∧
    HeroSection.mk_validated "x" "The easiest way to test" "Go" =
      Except.error "HeroSection.headline length out of bounds" ∧
    HeroSection.assign_headline ⟨"Welcome to TestProduct", "The easiest way to test", "Go"⟩ "w" =
      Except.ok ⟨"w", "The easiest way to test", "Go"⟩ :=
  ⟨by decide,
   revalidation_only_at_aggregate_root.2.2.1 "x" "The easiest way to test" "Go" (by decide),
   revalidation_only_at_aggregate_root.1
     ⟨"Welcome to TestProduct", "The easiest way to test", "Go"⟩ "w"⟩

end LandingGen

namespace LandingGen

/-! ## Round-trip lemmas for the serialization layer -/

theorem exBind_ok {α β : Type} (a : α) (f : α → Except String β) :
    exBind (.ok a) f = f a := rfl

theorem strList_map_str (l : List String) : strList (l.map JVal.str) = .ok l := by
  induction l with
  | nil => rfl
  | cons s rest ih =>
    show exBind (strList (rest.map JVal.str)) _ = _
    rw [ih]
    rfl

theorem strPairs_map (ps : List (String × String)) :
    strPairs (ps.map fun p => (p.1, JVal.str p.2)) = .ok ps := by
  induction ps with
  | nil => rfl
  | cons p rest ih =>
    show exBind (strPairs (rest.map fun p => (p.1, JVal.str p.2))) _ = _
    rw [ih]
    rfl

theorem decodeStrObjList_map (l : List (List (String × String))) :
    decodeStrObjList (l.map fun ps => JVal.obj (ps.map fun p => (p.1, JVal.str p.2))) =
      .ok l := by
  induction l with
  | nil => rfl
  | cons ps rest ih =>
    show exBind (strPairs (ps.map fun p => (p.1, JVal.str p.2))) _ = _
    rw [strPairs_map]
    show exBind (decodeStrObjList (rest.map fun ps => JVal.obj (ps.map fun p => (p.1, JVal.str p.2)))) _ = _
    rw [ih]
    rfl

theorem decodeObjList_map (l : List (List (String × JVal))) :
    decodeObjList (l.map fun ps => JVal.obj ps) = .ok l := by
  induction l with
  | nil => rfl
  | cons ps rest ih =>
    show exBind (decodeObjList (rest.map fun ps => JVal.obj ps)) _ = _
    rw [ih]
    rfl

theorem hero_decode_encode (x : HeroSection) (h : x.Valid) :
    HeroSection.decode (HeroSection.encode x) = .ok x := h

theorem feature_decode_encode (x : Feature) (h : x.Valid) :
    Feature.decode (Feature.encode x) = .ok x := h

theorem testimonial_decode_encode (x : Testimonial) (h : x.Valid) :
    Testimonial.decode (Testimonial.encode x) = .ok x := h

theorem color_palette_decode_encode (x : ColorPalette) (h : x.Valid) :
    ColorPalette.decode (ColorPalette.encode x) = .ok x := h

theorem typography_decode_encode (x : Typography) (h : x.Valid) :
    Typography.decode (Typography.encode x) = .ok x := h

theorem render_config_decode_encode (x : RenderConfig) (h : x.Valid) :
    RenderConfig.decode (RenderConfig.encode x) = .ok x := h

theorem sections_config_decode_encode (x : SectionsConfig) :
    SectionsConfig.decode (SectionsConfig.encode x) = .ok x := rfl

theorem generation_meta_decode_encode (x : GenerationMeta) (h : x.Valid) :
    GenerationMeta.decode (GenerationMeta.encode x) = .ok x := by
  show exBind (strList (x.pipeline_steps.map JVal.str)) _ = _
  rw [strList_map_str]
  exact h

theorem content_variants_decode_encode (x : ContentVariants) (h : x.Valid) :
    ContentVariants.decode (ContentVariants.encode x) = .ok x := by
  show exBind (strList (x.headlines.map JVal.str)) _ = _
  rw [strList_map_str]
  show exBind (strList (x.ctas.map JVal.str)) _ = _
  rw [strList_map_str]
  exact h

theorem project_info_decode_encode (x : ProjectInfo) (h : x.Valid) :
    ProjectInfo.decode (ProjectInfo.encode x) = .ok x := by
  show exBind (strList (x.keywords.map JVal.str)) _ = _
  rw [strList_map_str]
  exact h

theorem brand_identity_decode_encode (x : BrandIdentity) (h : x.Valid) :
    BrandIdentity.decode (BrandIdentity.encode x) = .ok x := by
  obtain ⟨hc, hf, hb⟩ := h
  show exBind (ColorPalette.decode (ColorPalette.encode x.colors)) _ = _
  rw [color_palette_decode_encode x.colors hc, exBind_ok]
  show exBind (Typography.decode (Typography.encode x.fonts)) _ = _
  rw [typography_decode_encode x.fonts hf, exBind_ok]
  show exBind (strList (x.tone_rules.map JVal.str)) _ = _
  rw [strList_map_str, exBind_ok]
  exact hb

theorem asset_slots_decode_encode (x : AssetSlots) (h : x.Valid) :
    AssetSlots.decode (AssetSlots.encode x) = .ok x := by
  obtain ⟨p1, p2, p3, p4, ps⟩ := x
  rcases p1 with _ | s1 <;> rcases p2 with _ | s2 <;>
    rcases p3 with _ | s3 <;> rcases p4 with _ | s4 <;>
  · show exBind (strList (ps.map JVal.str)) _ = _
    rw [strList_map_str]
    exact h

theorem decodeFeatureList_map (l : List Feature) (h : ∀ f ∈ l, f.Valid) :
    decodeFeatureList (l.map Feature.encode) = .ok l := by
  induction l with
  | nil => rfl
  | cons f rest ih =>
    show exBind (Feature.decode (Feature.encode f)) _ = _
    rw [feature_decode_encode f (h f (by simp))]
    show exBind (decodeFeatureList (rest.map Feature.encode)) _ = _
    rw [ih (fun g hg => h g (by simp [hg]))]
    rfl

theorem landing_content_decode_encode (x : LandingContent) (h : x.Valid) :
    LandingContent.decode (LandingContent.encode x) = .ok x := by
  obtain ⟨hh, hfs, ht, hv, hc⟩ := h
  show exBind (HeroSection.decode (HeroSection.encode x.hero)) _ = _
  rw [hero_decode_encode x.hero hh, exBind_ok]
  show exBind (decodeFeatureList (x.features.map Feature.encode)) _ = _
  rw [decodeFeatureList_map x.features hfs, exBind_ok]
  show exBind (Testimonial.decode (Testimonial.encode x.testimonial)) _ = _
  rw [testimonial_decode_encode x.testimonial ht, exBind_ok]
  show exBind (ContentVariants.decode (ContentVariants.encode x.variants)) _ = _
  rw [content_variants_decode_encode x.variants hv, exBind_ok]
  show exBind (SectionsConfig.decode (SectionsConfig.encode x.sections)) _ = _
  rw [sections_config_decode_encode x.sections, exBind_ok]
  show exBind (decodeStrObjList (x.faq_items.map fun ps => JVal.obj (ps.map fun p => (p.1, JVal.str p.2)))) _ = _
  rw [decodeStrObjList_map, exBind_ok]
  show exBind (decodeObjList (x.pricing_plans.map fun ps => JVal.obj ps)) _ = _
  rw [decodeObjList_map, exBind_ok]
  exact hc

end LandingGen

namespace LandingGen

/-- C6: deserializing the serialized form of any valid `CanonicalData`
document yields the document unchanged in every field — meta (including
`schema_version`), project, brand, content, assets and render. -/
theorem serialization_round_trip (d : CanonicalData) (h : d.Valid) :
    CanonicalData.from_json (CanonicalData.to_json d) = Except.ok d := by
  obtain ⟨meta, project, brand, content, assets, render⟩ := d
  obtain ⟨hm, hp, hb, hc, ha, hr⟩ := h
  show exBind (GenerationMeta.decode (GenerationMeta.encode meta)) _ = _
  rw [generation_meta_decode_encode meta hm, exBind_ok]
  show exBind (ProjectInfo.decode (ProjectInfo.encode project)) _ = _
  rw [project_info_decode_encode project hp, exBind_ok]
  rcases brand with _ | b <;> rcases content with _ | c
  · show exBind (AssetSlots.decode (AssetSlots.encode assets)) _ = _
    rw [asset_slots_decode_encode assets ha, exBind_ok]
    show exBind (RenderConfig.decode (RenderConfig.encode render)) _ = _
    rw [render_config_decode_encode render hr, exBind_ok]
    rfl
  · show exBind (exBind (LandingContent.decode (LandingContent.encode c))
      fun y => Except.ok (some y)) _ = _
    rw [landing_content_decode_encode c (hc c rfl), exBind_ok, exBind_ok]
    show exBind (AssetSlots.decode (AssetSlots.encode assets)) _ = _
    rw [asset_slots_decode_encode assets ha, exBind_ok]
    show exBind (RenderConfig.decode (RenderConfig.encode render)) _ = _
    rw [render_config_decode_encode render hr, exBind_ok]
    rfl
  · show exBind (exBind (BrandIdentity.decode (BrandIdentity.encode b))
      fun y => Except.ok (some y)) _ = _
    rw [brand_identity_decode_encode b (hb b rfl), exBind_ok, exBind_ok]
    show exBind (AssetSlots.decode (AssetSlots.encode assets)) _ = _
    rw [asset_slots_decode_encode assets ha, exBind_ok]
    show exBind (RenderConfig.decode (RenderConfig.encode render)) _ = _
    rw [render_config_decode_encode render hr, exBind_ok]
    rfl
  · show exBind (exBind (BrandIdentity.decode (BrandIdentity.encode b))
      fun y => Except.ok (some y)) _ = _
    rw [brand_identity_decode_encode b (hb b rfl), exBind_ok, exBind_ok]
    show exBind (exBind (LandingContent.decode (LandingContent.encode c))
      fun y => Except.ok (some y)) _ = _
    rw [landing_content_decode_encode c (hc c rfl), exBind_ok, exBind_ok]
    show exBind (AssetSlots.decode (AssetSlots.encode assets)) _ = _
    rw [asset_slots_decode_encode assets ha, exBind_ok]
    show exBind (RenderConfig.decode (RenderConfig.encode render)) _ = _
    rw [render_config_decode_encode render hr, exBind_ok]
    rfl

theorem serialization_round_trip_witness :
    exampleDoc.Valid ∧
    CanonicalData.from_json (CanonicalData.to_json exampleDoc) = Except.ok exampleDoc := by
  have hv : exampleDoc.Valid := by
    refine ⟨rfl, rfl, ?_, ?_, rfl, rfl⟩
    · intro b hb
      cases hb
      exact ⟨rfl, rfl, rfl⟩
    · intro c hc
      cases hc
      refine ⟨rfl, ?_, rfl, rfl, rfl⟩
      intro f hf
      fin_cases hf <;> rfl
  exact ⟨hv, serialization_round_trip exampleDoc hv⟩

end LandingGen
